import Mathlib

/-!
# ReGIR parameter records (`rtxdi/ReGIRParameters.h`)

Embedding of the ReGIR parameter header of the RTXDI SDK: the capacity and mode
constants, the five parameter records, and the way a record is handed over as a
flat block of scalars.

Conventions of the embedding:

* `float` fields are values of a type parameter `K` (an ordered field where
  arithmetic is needed, `ℚ` for evaluation, `ℝ` where a logarithm is involved);
  rounding is not part of the model;
* `int` fields are `Int`, `uint32_t` fields are `Nat`;
* a fixed-size C array `T a[n]` is a `CArray T n`: a list together with the
  proof that it has exactly `n` elements.
-/

namespace RTXDI

/-! ## Constants (lines 6 to 15 and 43 to 47 of the header) -/

/-- Capacity of the `layers` array: `#define RTXDI_ONION_MAX_LAYER_GROUPS 8`. -/
def RTXDI_ONION_MAX_LAYER_GROUPS : Nat := 8

/-- Capacity of the `rings` array: `#define RTXDI_ONION_MAX_RINGS 52`. -/
def RTXDI_ONION_MAX_RINGS : Nat := 52

/-- Mode value `#define RTXDI_REGIR_DISABLED 0`. -/
def RTXDI_REGIR_DISABLED : Nat := 0

/-- Mode value `#define RTXDI_REGIR_GRID 1`. -/
def RTXDI_REGIR_GRID : Nat := 1

/-- Mode value `#define RTXDI_REGIR_ONION 2`. -/
def RTXDI_REGIR_ONION : Nat := 2

/-- The three mode macros of the header, in the order they are defined, each with
its name and its value. -/
def regirModeMacros : List (String × Nat) :=
  [("RTXDI_REGIR_DISABLED", RTXDI_REGIR_DISABLED),
   ("RTXDI_REGIR_GRID", RTXDI_REGIR_GRID),
   ("RTXDI_REGIR_ONION", RTXDI_REGIR_ONION)]

/-- The selected mode. The header reads
`#ifndef RTXDI_REGIR_MODE` / `#define RTXDI_REGIR_MODE RTXDI_REGIR_DISABLED` / `#endif`:
`buildDefine` is the value the build gave the macro before the header is read,
`none` when the build did not define it. -/
def RTXDI_REGIR_MODE (buildDefine : Option Nat) : Nat :=
  match buildDefine with
  | some m => m
  | none => RTXDI_REGIR_DISABLED

/-- Fallback mode value `#define REGIR_LOCAL_LIGHT_FALLBACK_MODE_UNIFORM 0`. -/
def REGIR_LOCAL_LIGHT_FALLBACK_MODE_UNIFORM : Nat := 0

/-- Fallback mode value `#define REGIR_LOCAL_LIGHT_FALLBACK_MODE_POWER_RIS 1`. -/
def REGIR_LOCAL_LIGHT_FALLBACK_MODE_POWER_RIS : Nat := 1

/-- Fixed-size C array `T a[n]`: exactly `n` elements, whatever the contents. -/
structure CArray (α : Type) (n : Nat) where
  data : List α
  size_eq : data.length = n

/-- Record `struct RTXDI_OnionLayerGroup` (lines 17 to 33). -/
structure RTXDI_OnionLayerGroup (K : Type) where
  innerRadius : K
  outerRadius : K
  invLogLayerScale : K
  layerCount : Int
  invEquatorialCellAngle : K
  cellsPerLayer : Int
  ringOffset : Int
  ringCount : Int
  equatorialCellAngle : K
  layerScale : K
  layerCellOffset : Int
  pad : Int

/-- Record `struct RTXDI_OnionRing` (lines 35 to 41). -/
structure RTXDI_OnionRing (K : Type) where
  cellAngle : K
  invCellAngle : K
  cellOffset : Int
  cellCount : Int

/-- Record `struct RTXDI_ReGIRCommonParameters` (lines 49 to 65). -/
structure RTXDI_ReGIRCommonParameters (K : Type) where
  localLightSamplingFallbackMode : Nat
  centerX : K
  centerY : K
  centerZ : K
  risBufferOffset : Nat
  lightsPerCell : Nat
  cellSize : K
  samplingJitter : K
  localLightPresamplingMode : Nat
  numRegirBuildSamples : Nat
  pad0 : Nat
  pad1 : Nat

/-- Record `struct RTXDI_ReGIRGridParameters` (lines 67 to 73). -/
structure RTXDI_ReGIRGridParameters where
  cellsX : Nat
  cellsY : Nat
  cellsZ : Nat
  pad : Nat

/-- Record `struct RTXDI_ReGIROnionParameters` (lines 75 to 84). -/
structure RTXDI_ReGIROnionParameters (K : Type) where
  layers : CArray (RTXDI_OnionLayerGroup K) RTXDI_ONION_MAX_LAYER_GROUPS
  rings : CArray (RTXDI_OnionRing K) RTXDI_ONION_MAX_RINGS
  numLayerGroups : Nat
  cubicRootFactor : K
  linearFactor : K
  pad : K

/-! ## The flat block of scalars

Every member of the five records is a `float`, an `int` or a `uint32_t`, or an
array of records made of these. All three scalar types have the same width `w`
and the same alignment, so a record is laid out as its scalars one after the
other, in declaration order, with no padding between them. -/

/-- One scalar member of a record, tagged with its C type. -/
inductive Scalar (K : Type) where
  | float (x : K)
  | int (x : Int)
  | uint32_t (x : Nat)

/-- Size in bytes of a run of scalars, each `w` bytes wide. -/
def byteSize {K : Type} (w : Nat) (block : List (Scalar K)) : Nat :=
  w * block.length

/-- The scalars of a layer group, in declaration order. -/
def RTXDI_OnionLayerGroup.scalars {K : Type} (g : RTXDI_OnionLayerGroup K) : List (Scalar K) :=
  [.float g.innerRadius, .float g.outerRadius, .float g.invLogLayerScale, .int g.layerCount,
   .float g.invEquatorialCellAngle, .int g.cellsPerLayer, .int g.ringOffset, .int g.ringCount,
   .float g.equatorialCellAngle, .float g.layerScale, .int g.layerCellOffset, .int g.pad]

/-- The scalars of a ring, in declaration order. -/
def RTXDI_OnionRing.scalars {K : Type} (r : RTXDI_OnionRing K) : List (Scalar K) :=
  [.float r.cellAngle, .float r.invCellAngle, .int r.cellOffset, .int r.cellCount]

/-- The scalars of the common parameters, in declaration order. -/
def RTXDI_ReGIRCommonParameters.scalars {K : Type} (c : RTXDI_ReGIRCommonParameters K) :
    List (Scalar K) :=
  [.uint32_t c.localLightSamplingFallbackMode, .float c.centerX, .float c.centerY,
   .float c.centerZ,
   .uint32_t c.risBufferOffset, .uint32_t c.lightsPerCell, .float c.cellSize,
   .float c.samplingJitter,
   .uint32_t c.localLightPresamplingMode, .uint32_t c.numRegirBuildSamples, .uint32_t c.pad0,
   .uint32_t c.pad1]

/-- The scalars of the grid parameters, in declaration order. -/
def RTXDI_ReGIRGridParameters.scalars {K : Type} (g : RTXDI_ReGIRGridParameters) :
    List (Scalar K) :=
  [.uint32_t g.cellsX, .uint32_t g.cellsY, .uint32_t g.cellsZ, .uint32_t g.pad]

/-- The scalars of all slots of the `layers` array, slot after slot. -/
def layersBlock {K : Type} (p : RTXDI_ReGIROnionParameters K) : List (Scalar K) :=
  (p.layers.data.map RTXDI_OnionLayerGroup.scalars).flatten

/-- The scalars of all slots of the `rings` array, slot after slot. -/
def ringsBlock {K : Type} (p : RTXDI_ReGIROnionParameters K) : List (Scalar K) :=
  (p.rings.data.map RTXDI_OnionRing.scalars).flatten

/-- The scalars of the onion parameters, in declaration order: every slot of
`layers`, every slot of `rings`, then the four trailing scalars. -/
def RTXDI_ReGIROnionParameters.scalars {K : Type} (p : RTXDI_ReGIROnionParameters K) :
    List (Scalar K) :=
  layersBlock p ++ ringsBlock p ++
    [.uint32_t p.numLayerGroups, .float p.cubicRootFactor, .float p.linearFactor, .float p.pad]

/-- Byte offset of slot `i` of the `layers` array inside the onion parameters. -/
def layerSlotOffset {K : Type} (w : Nat) (p : RTXDI_ReGIROnionParameters K) (i : Nat) : Nat :=
  byteSize w ((p.layers.data.take i).map RTXDI_OnionLayerGroup.scalars).flatten

/-- Byte offset of slot `j` of the `rings` array inside the onion parameters: the
whole `layers` array comes first. -/
def ringSlotOffset {K : Type} (w : Nat) (p : RTXDI_ReGIROnionParameters K) (j : Nat) : Nat :=
  byteSize w (layersBlock p) + byteSize w ((p.rings.data.take j).map RTXDI_OnionRing.scalars).flatten

/-! ## Builders and lookup

The header only declares the records. The builders and the point-to-cell lookup
live elsewhere in the SDK; they are modelled here from the design document, over
exact arithmetic in an ordered field `K` with a floor function. -/

/-- Modelled from the spec: the build-time error taxonomy (section 7), which the
header does not declare. -/
inductive BuildError where
  | InvalidConfig
  | CapacityExceeded
  | DegenerateGeometry
  deriving DecidableEq, Repr

/-- Modelled from the spec: `buildGrid(cellsX, cellsY, cellsZ)` (sections 4.1 and 6),
absent from the header. It validates that all three counts are greater than 0 and
fails with `InvalidConfig` otherwise; the counts are signed on input so that a
non-positive request can be expressed, and are stored in the `uint32_t` members
of the grid record. -/
def buildGrid (cellsX cellsY cellsZ : Int) : Except BuildError RTXDI_ReGIRGridParameters :=
  if 0 < cellsX ∧ 0 < cellsY ∧ 0 < cellsZ then
    .ok ⟨cellsX.toNat, cellsY.toNat, cellsZ.toNat, 0⟩
  else
    .error .InvalidConfig

/-- Modelled from the spec: the number of cells of a grid partition, the product
of its three cell counts (section 3). -/
def totalCells (g : RTXDI_ReGIRGridParameters) : Nat :=
  g.cellsX * g.cellsY * g.cellsZ

/-- A point or vector of world space. -/
structure Vec3 (K : Type) where
  x : K
  y : K
  z : K

/-- Modelled from the spec: saturating clamp of an integer into `[lo, hi]`. -/
def clampIndex (v lo hi : Int) : Int :=
  max lo (min v hi)

section Lookup

variable {K : Type} [LinearOrderedField K] [FloorRing K]

/-- Modelled from the spec: the cell coordinate on one axis (section 4.1),
`floor((worldPos - center) / cellSize)` clamped into `[0, cellsN - 1]`. -/
def gridAxisCell (worldPos center cellSize : K) (cellsN : Nat) : Int :=
  clampIndex ⌊(worldPos - center) / cellSize⌋ 0 ((cellsN : Int) - 1)

/-- Modelled from the spec: `locate(worldPos, center, cellSize)` of a grid
partition (section 4.1), absent from the header: the three clamped cell
coordinates, flattened as `x + y*cellsX + z*cellsX*cellsY`. -/
def gridLocate (g : RTXDI_ReGIRGridParameters) (worldPos center : Vec3 K) (cellSize : K) : Int :=
  let x := gridAxisCell worldPos.x center.x cellSize g.cellsX
  let y := gridAxisCell worldPos.y center.y cellSize g.cellsY
  let z := gridAxisCell worldPos.z center.z cellSize g.cellsZ
  x + y * (g.cellsX : Int) + z * (g.cellsX : Int) * (g.cellsY : Int)

end Lookup

/-- The first `n` elements of `l`, filled up with `fill` when `l` is shorter. -/
def CArray.ofList {α : Type} (n : Nat) (fill : α) (l : List α) : CArray α n :=
  ⟨(l ++ List.replicate (n - l.length) fill).take n, by
    simp only [List.length_take, List.length_append, List.length_replicate]
    omega⟩

/-- Modelled from the spec: what an onion build needs once its geometry is planned
(section 4.4), absent from the header: the layer groups and
the rings, in order, and the two growth factors. How the tunables (scene radius,
light density target, growth configuration) turn into this plan is left open by
the design document (section 9). -/
structure OnionRequest (K : Type) where
  layers : List (RTXDI_OnionLayerGroup K)
  rings : List (RTXDI_OnionRing K)
  cubicRootFactor : K
  linearFactor : K

/-- An unused slot of the `layers` array. -/
def emptyLayerGroup (K : Type) [Zero K] : RTXDI_OnionLayerGroup K :=
  ⟨0, 0, 0, 0, 0, 0, 0, 0, 0, 0, 0, 0⟩

/-- An unused slot of the `rings` array. -/
def emptyRing (K : Type) [Zero K] : RTXDI_OnionRing K :=
  ⟨0, 0, 0, 0⟩

/-- Modelled from the spec: `buildOnion` (sections 4.4 and 6), absent from the
header. The builder rejects a configuration that would exceed either cap (8 layer
groups, 52 rings) with `CapacityExceeded`; `validate` stands for the remaining
build-time checks (`InvalidConfig`, `DegenerateGeometry`), whose tests the design
document does not fix. On success the plan is stored in the fixed-size record,
unused slots zeroed, with `numLayerGroups` the number of groups in use. -/
def buildOnion {K : Type} [Zero K] (validate : OnionRequest K → Option BuildError)
    (req : OnionRequest K) : Except BuildError (RTXDI_ReGIROnionParameters K) :=
  if RTXDI_ONION_MAX_LAYER_GROUPS < req.layers.length ∨
      RTXDI_ONION_MAX_RINGS < req.rings.length then
    .error .CapacityExceeded
  else
    match validate req with
    | some e => .error e
    | none =>
      .ok ⟨CArray.ofList RTXDI_ONION_MAX_LAYER_GROUPS (emptyLayerGroup K) req.layers,
           CArray.ofList RTXDI_ONION_MAX_RINGS (emptyRing K) req.rings,
           req.layers.length, req.cubicRootFactor, req.linearFactor, 0⟩

/-! ## Helper lemmas -/

theorem flatten_map_length_const {α β : Type} (f : α → List β) (c : Nat)
    (hf : ∀ a, (f a).length = c) (l : List α) : ((l.map f).flatten).length = c * l.length := by
  induction l with
  | nil => simp
  | cons a l ih => simp [hf a, ih, Nat.mul_succ, Nat.add_comm]

theorem layerGroup_scalars_length {K : Type} (g : RTXDI_OnionLayerGroup K) :
    g.scalars.length = 12 := rfl

theorem ring_scalars_length {K : Type} (r : RTXDI_OnionRing K) : r.scalars.length = 4 := rfl

theorem layersBlock_length {K : Type} (p : RTXDI_ReGIROnionParameters K) :
    (layersBlock p).length = 96 := by
  unfold layersBlock
  rw [flatten_map_length_const _ 12 layerGroup_scalars_length, p.layers.size_eq]
  rfl

theorem ringsBlock_length {K : Type} (p : RTXDI_ReGIROnionParameters K) :
    (ringsBlock p).length = 208 := by
  unfold ringsBlock
  rw [flatten_map_length_const _ 4 ring_scalars_length, p.rings.size_eq]
  rfl

theorem take_flatten_map_length_const {α β : Type} (f : α → List β) (c : Nat)
    (hf : ∀ a, (f a).length = c) (l : List α) (i : Nat) (hi : i ≤ l.length) :
    (((l.take i).map f).flatten).length = c * i := by
  rw [flatten_map_length_const f c hf, List.length_take, Nat.min_eq_left hi]

/-! ## The records and their layout -/

/-- C1: for every value of the onion parameter record, the `layers` array has
exactly `RTXDI_ONION_MAX_LAYER_GROUPS = 8` slots and the `rings` array exactly
`RTXDI_ONION_MAX_RINGS = 52` slots. -/
theorem onion_parameters_slot_counts {K : Type} (p : RTXDI_ReGIROnionParameters K) :
    p.layers.data.length = RTXDI_ONION_MAX_LAYER_GROUPS ∧
    p.rings.data.length = RTXDI_ONION_MAX_RINGS ∧
    RTXDI_ONION_MAX_LAYER_GROUPS = 8 ∧ RTXDI_ONION_MAX_RINGS = 52 ∧
    p.layers.data.length = 8 ∧ p.rings.data.length = 52 :=
  ⟨p.layers.size_eq, p.rings.size_eq, rfl, rfl, p.layers.size_eq, p.rings.size_eq⟩

/-- C2: with scalars 4 bytes wide, the onion parameter block of every record value is
8 layer-group records of 48 bytes (bytes 0 to 383), then 52 ring records of 16 bytes
(bytes 384 to 1215), then `numLayerGroups`, `cubicRootFactor`, `linearFactor` and
`pad`; it is 1232 bytes long, and giving `numLayerGroups` any other value `n` leaves
the size unchanged. -/
theorem onion_parameters_fixed_layout {K : Type} (p : RTXDI_ReGIROnionParameters K) (n : Nat) :
    byteSize 4 p.scalars = 1232 ∧
    8 * 48 + 52 * 16 + 16 = 1232 ∧
    p.scalars.take 96 = layersBlock p ∧
    p.layers.data.length = 8 ∧
    (∀ g : RTXDI_OnionLayerGroup K, byteSize 4 g.scalars = 48) ∧
    byteSize 4 (layersBlock p) = 8 * 48 ∧
    (p.scalars.drop 96).take 208 = ringsBlock p ∧
    p.rings.data.length = 52 ∧
    (∀ r : RTXDI_OnionRing K, byteSize 4 r.scalars = 16) ∧
    byteSize 4 (ringsBlock p) = 52 * 16 ∧
    p.scalars.drop 304 =
      [.uint32_t p.numLayerGroups, .float p.cubicRootFactor, .float p.linearFactor,
       .float p.pad] ∧
    byteSize 4
      (RTXDI_ReGIROnionParameters.mk p.layers p.rings n p.cubicRootFactor p.linearFactor
        p.pad).scalars = 1232 := by
  have hl := layersBlock_length p
  have hr := ringsBlock_length p
  have hsize : ∀ q : RTXDI_ReGIROnionParameters K, byteSize 4 q.scalars = 1232 := by
    intro q
    simp [byteSize, RTXDI_ReGIROnionParameters.scalars, layersBlock_length, ringsBlock_length]
  refine ⟨hsize p, rfl, ?_, p.layers.size_eq, fun _ => rfl, ?_, ?_, p.rings.size_eq,
    fun _ => rfl, ?_, ?_, hsize _⟩
  · unfold RTXDI_ReGIROnionParameters.scalars
    rw [List.append_assoc, List.take_left' hl]
  · simp [byteSize, hl]
  · unfold RTXDI_ReGIROnionParameters.scalars
    rw [List.append_assoc, List.drop_left' hl, List.take_left' hr]
  · simp [byteSize, hr]
  · unfold RTXDI_ReGIROnionParameters.scalars
    have h : (layersBlock p ++ ringsBlock p).length = 304 := by
      simp [hl, hr]
    rw [List.drop_left' h]

/-- C3: the header names exactly three modes, Disabled = 0, Grid = 1 and Onion = 2,
pairwise distinct, and a build that does not define `RTXDI_REGIR_MODE` selects
Disabled. -/
theorem regir_mode_selector :
    regirModeMacros.length = 3 ∧
    regirModeMacros.map Prod.snd = [0, 1, 2] ∧
    RTXDI_REGIR_DISABLED = 0 ∧ RTXDI_REGIR_GRID = 1 ∧ RTXDI_REGIR_ONION = 2 ∧
    RTXDI_REGIR_DISABLED ≠ RTXDI_REGIR_GRID ∧
    RTXDI_REGIR_DISABLED ≠ RTXDI_REGIR_ONION ∧
    RTXDI_REGIR_GRID ≠ RTXDI_REGIR_ONION ∧
    RTXDI_REGIR_MODE none = RTXDI_REGIR_DISABLED := by
  refine ⟨rfl, rfl, rfl, rfl, rfl, ?_, ?_, ?_, rfl⟩ <;> decide

/-- C10: with scalars 4 bytes wide, the five records are 48, 16, 48, 16 and 1232 bytes
long, each a whole multiple of 16, and every slot of the `layers` and `rings` arrays
starts at a byte offset that is a multiple of 16 (slot `i` of `layers` at `48 * i`,
slot `j` of `rings` at `384 + 16 * j`). -/
theorem record_sizes_multiple_of_16 {K : Type} (g : RTXDI_OnionLayerGroup K)
    (r : RTXDI_OnionRing K) (c : RTXDI_ReGIRCommonParameters K)
    (gr : RTXDI_ReGIRGridParameters) (p : RTXDI_ReGIROnionParameters K)
    (i : Fin RTXDI_ONION_MAX_LAYER_GROUPS) (j : Fin RTXDI_ONION_MAX_RINGS) :
    byteSize 4 g.scalars = 48 ∧ byteSize 4 g.scalars % 16 = 0 ∧
    byteSize 4 r.scalars = 16 ∧ byteSize 4 r.scalars % 16 = 0 ∧
    byteSize 4 c.scalars = 48 ∧ byteSize 4 c.scalars % 16 = 0 ∧
    byteSize 4 (gr.scalars : List (Scalar K)) = 16 ∧
    byteSize 4 (gr.scalars : List (Scalar K)) % 16 = 0 ∧
    byteSize 4 p.scalars = 1232 ∧ byteSize 4 p.scalars % 16 = 0 ∧
    layerSlotOffset 4 p i = 48 * i ∧ layerSlotOffset 4 p i % 16 = 0 ∧
    ringSlotOffset 4 p j = 384 + 16 * j ∧ ringSlotOffset 4 p j % 16 = 0 := by
  have hp : byteSize 4 p.scalars = 1232 := by
    simp [byteSize, RTXDI_ReGIROnionParameters.scalars, layersBlock_length, ringsBlock_length]
  have hi : (i : Nat) ≤ p.layers.data.length := by
    rw [p.layers.size_eq]; exact Nat.le_of_lt i.isLt
  have hj : (j : Nat) ≤ p.rings.data.length := by
    rw [p.rings.size_eq]; exact Nat.le_of_lt j.isLt
  have hlo : layerSlotOffset 4 p i = 48 * i := by
    unfold layerSlotOffset byteSize
    rw [take_flatten_map_length_const _ 12 layerGroup_scalars_length _ _ hi]
    omega
  have hro : ringSlotOffset 4 p j = 384 + 16 * j := by
    unfold ringSlotOffset byteSize
    rw [take_flatten_map_length_const _ 4 ring_scalars_length _ _ hj, layersBlock_length]
    omega
  have hg : byteSize 4 g.scalars = 48 := rfl
  have hr : byteSize 4 r.scalars = 16 := rfl
  have hc : byteSize 4 c.scalars = 48 := rfl
  have hgr : byteSize 4 (gr.scalars : List (Scalar K)) = 16 := rfl
  refine ⟨hg, ?_, hr, ?_, hc, ?_, hgr, ?_, hp, ?_, hlo, ?_, hro, ?_⟩
  · rw [hg]
  · rw [hr]
  · rw [hc]
  · rw [hgr]
  · rw [hp]
  · rw [hlo]; omega
  · rw [hro]; omega

/-! ## Grid partition -/

theorem clampIndex_mem (v lo hi : Int) (h : lo ≤ hi) :
    lo ≤ clampIndex v lo hi ∧ clampIndex v lo hi ≤ hi := by
  unfold clampIndex
  exact ⟨le_max_left _ _, max_le h (min_le_right _ _)⟩

theorem clampIndex_of_mem (v lo hi : Int) (h1 : lo ≤ v) (h2 : v ≤ hi) :
    clampIndex v lo hi = v := by
  unfold clampIndex
  rw [min_eq_left h2, max_eq_right h1]

/-- C6: `buildGrid` succeeds exactly when the three cell counts are all greater than 0
and fails with `InvalidConfig` exactly otherwise; a grid record it returns holds the
three requested counts, all positive. -/
theorem buildGrid_spec (cellsX cellsY cellsZ : Int) :
    ((0 < cellsX ∧ 0 < cellsY ∧ 0 < cellsZ) ↔ ∃ g, buildGrid cellsX cellsY cellsZ = .ok g) ∧
    (¬ (0 < cellsX ∧ 0 < cellsY ∧ 0 < cellsZ) ↔
      buildGrid cellsX cellsY cellsZ = .error .InvalidConfig) ∧
    (∀ g, buildGrid cellsX cellsY cellsZ = .ok g →
      0 < g.cellsX ∧ 0 < g.cellsY ∧ 0 < g.cellsZ ∧
      (g.cellsX : Int) = cellsX ∧ (g.cellsY : Int) = cellsY ∧ (g.cellsZ : Int) = cellsZ) := by
  unfold buildGrid
  by_cases h : 0 < cellsX ∧ 0 < cellsY ∧ 0 < cellsZ
  · rw [if_pos h]
    refine ⟨⟨fun _ => ⟨_, rfl⟩, fun _ => h⟩, ⟨fun hn => absurd h hn, fun he => ?_⟩, ?_⟩
    · cases he
    · intro g hg
      cases hg
      obtain ⟨hx, hy, hz⟩ := h
      refine ⟨?_, ?_, ?_, ?_, ?_, ?_⟩ <;> simp <;> omega
  · rw [if_neg h]
    refine ⟨⟨fun hp => absurd hp h, fun ⟨g, hg⟩ => ?_⟩, ⟨fun _ => rfl, fun _ => h⟩, ?_⟩
    · cases hg
    · intro g hg
      cases hg

/-- Witness of C6: the request (4, 4, 4) is built, the request (4, 0, 4) is refused. -/
theorem buildGrid_spec_witness :
    (∃ g, buildGrid 4 4 4 = .ok g) ∧ buildGrid 4 0 4 = .error .InvalidConfig :=
  ⟨(buildGrid_spec 4 4 4).1.mp (by decide), (buildGrid_spec 4 0 4).2.1.mp (by decide)⟩

/-- Grid half of the lookup range property: in a grid with three positive cell counts
the flat index of every position lies in `[0, totalCells)`. -/
theorem gridLocate_lt_totalCells {K : Type} [LinearOrderedField K] [FloorRing K]
    (g : RTXDI_ReGIRGridParameters) (worldPos center : Vec3 K) (cellSize : K)
    (hx : 0 < g.cellsX) (hy : 0 < g.cellsY) (hz : 0 < g.cellsZ) :
    0 ≤ gridLocate g worldPos center cellSize ∧
    gridLocate g worldPos center cellSize < (totalCells g : Int) := by
  have bx := clampIndex_mem ⌊(worldPos.x - center.x) / cellSize⌋ 0 ((g.cellsX : Int) - 1)
    (by omega)
  have by_ := clampIndex_mem ⌊(worldPos.y - center.y) / cellSize⌋ 0 ((g.cellsY : Int) - 1)
    (by omega)
  have bz := clampIndex_mem ⌊(worldPos.z - center.z) / cellSize⌋ 0 ((g.cellsZ : Int) - 1)
    (by omega)
  simp only [gridLocate, gridAxisCell, totalCells, Nat.cast_mul]
  generalize clampIndex ⌊(worldPos.x - center.x) / cellSize⌋ 0 ((g.cellsX : Int) - 1) = x at bx
  generalize clampIndex ⌊(worldPos.y - center.y) / cellSize⌋ 0 ((g.cellsY : Int) - 1) = y at by_
  generalize clampIndex ⌊(worldPos.z - center.z) / cellSize⌋ 0 ((g.cellsZ : Int) - 1) = z at bz
  have cx : (0 : Int) < g.cellsX := by exact_mod_cast hx
  have cy : (0 : Int) < g.cellsY := by exact_mod_cast hy
  generalize (g.cellsX : Int) = a at *
  generalize (g.cellsY : Int) = b at *
  generalize (g.cellsZ : Int) = c at *
  have h1 : y * a ≤ (b - 1) * a := mul_le_mul_of_nonneg_right by_.2 (le_of_lt cx)
  have h2 : z * a * b ≤ (c - 1) * a * b := by
    have := mul_le_mul_of_nonneg_right bz.2 (le_of_lt (mul_pos cx cy))
    simpa [mul_assoc] using this
  have h3 : 0 ≤ y * a := mul_nonneg by_.1 (le_of_lt cx)
  have h4 : 0 ≤ z * a * b := mul_nonneg (mul_nonneg bz.1 (le_of_lt cx)) (le_of_lt cy)
  constructor
  · linarith [bx.1]
  · have e : a * b * c = (a - 1) + (b - 1) * a + (c - 1) * a * b + 1 := by ring
    rw [e]
    linarith [bx.2]

/-- C7: grid `locate` returns `x + y*cellsX + z*cellsX*cellsY`, where each coordinate is
`floor((worldPos - center) / cellSize)` on its axis clamped into `[0, cellsN - 1]`:
the coordinate lies in that range when the axis has at least one cell and equals the
floor when the floor is in range. In the grid built with (4, 4, 4), center (0, 0, 0)
and cell size 1, the position (0.1, 0.1, 0.1) has flat index 0. -/
theorem gridLocate_flat_index {K : Type} [LinearOrderedField K] [FloorRing K]
    (g : RTXDI_ReGIRGridParameters) (worldPos center : Vec3 K) (cellSize : K) :
    gridLocate g worldPos center cellSize
      = gridAxisCell worldPos.x center.x cellSize g.cellsX
        + gridAxisCell worldPos.y center.y cellSize g.cellsY * g.cellsX
        + gridAxisCell worldPos.z center.z cellSize g.cellsZ * g.cellsX * g.cellsY ∧
    (∀ (pos c : K) (n : Nat),
      gridAxisCell pos c cellSize n = max 0 (min ⌊(pos - c) / cellSize⌋ ((n : Int) - 1))) ∧
    (∀ (pos c : K) (n : Nat), 0 < n →
      0 ≤ gridAxisCell pos c cellSize n ∧ gridAxisCell pos c cellSize n ≤ (n : Int) - 1) ∧
    (∀ (pos c : K) (n : Nat), 0 ≤ ⌊(pos - c) / cellSize⌋ →
      ⌊(pos - c) / cellSize⌋ ≤ (n : Int) - 1 →
      gridAxisCell pos c cellSize n = ⌊(pos - c) / cellSize⌋) ∧
    (∃ g4, buildGrid 4 4 4 = .ok g4 ∧
      gridLocate g4 (⟨1 / 10, 1 / 10, 1 / 10⟩ : Vec3 ℚ) ⟨0, 0, 0⟩ 1 = 0) := by
  refine ⟨rfl, fun _ _ _ => rfl, ?_, ?_, ?_⟩
  · intro pos c n hn
    exact clampIndex_mem _ 0 _ (by omega)
  · intro pos c n h0 h1
    exact clampIndex_of_mem _ 0 _ h0 h1
  · refine ⟨⟨4, 4, 4, 0⟩, rfl, ?_⟩
    have hf : ⌊((1 : ℚ) / 10 - 0) / 1⌋ = 0 := by
      rw [Int.floor_eq_iff]
      constructor <;> norm_num
    simp only [gridLocate, gridAxisCell, hf]
    decide

/-! ## Onion partition -/

/-- C5: an onion build that needs more than 8 layer groups or more than 52 rings fails
with `CapacityExceeded`, whatever the other build-time checks are; in particular a
request for 9 layer groups fails, and a record that is returned has
`numLayerGroups` at most 8 and equal to the number of groups requested. -/
theorem buildOnion_capacity {K : Type} [Zero K] (validate : OnionRequest K → Option BuildError)
    (req : OnionRequest K) :
    ((8 < req.layers.length ∨ 52 < req.rings.length) →
      buildOnion validate req = .error .CapacityExceeded) ∧
    (req.layers.length = 9 → buildOnion validate req = .error .CapacityExceeded) ∧
    (∀ p, buildOnion validate req = .ok p →
      p.numLayerGroups ≤ 8 ∧ p.numLayerGroups = req.layers.length ∧ req.rings.length ≤ 52) := by
  have hcap : (8 < req.layers.length ∨ 52 < req.rings.length) →
      buildOnion validate req = .error .CapacityExceeded := by
    intro h
    unfold buildOnion
    exact if_pos h
  refine ⟨hcap, fun h9 => hcap (Or.inl (by omega)), ?_⟩
  intro p hp
  unfold buildOnion at hp
  by_cases h : RTXDI_ONION_MAX_LAYER_GROUPS < req.layers.length ∨
      RTXDI_ONION_MAX_RINGS < req.rings.length
  · rw [if_pos h] at hp
    cases hp
  · rw [if_neg h] at hp
    have h8 : req.layers.length ≤ 8 := by
      by_contra hh
      exact h (Or.inl (Nat.lt_of_not_le hh))
    have h52 : req.rings.length ≤ 52 := by
      by_contra hh
      exact h (Or.inr (Nat.lt_of_not_le hh))
    cases hv : validate req with
    | some e =>
      rw [hv] at hp
      cases hp
    | none =>
      rw [hv] at hp
      cases hp
      exact ⟨h8, rfl, h52⟩

/-- Witness of C5: a request for 9 layer groups and no ring is refused with
`CapacityExceeded`. -/
theorem buildOnion_capacity_witness :
    buildOnion (fun _ => none)
      (⟨List.replicate 9 (emptyLayerGroup ℚ), [], 0, 0⟩ : OnionRequest ℚ)
      = .error .CapacityExceeded :=
  (buildOnion_capacity (fun _ => none)
    (⟨List.replicate 9 (emptyLayerGroup ℚ), [], 0, 0⟩ : OnionRequest ℚ)).2.1 rfl

end RTXDI
